import Mathlib

/-!
Shallow embedding of `src/components/post/form/PostUpdateForm.tsx`
(repository Draxx0/next-posts).

The component is a post-update form.  The pieces of behaviour embedded
here, each translated from the source:

* `formSchemaValid` — the zod `formSchema`
  (`title: min 1 max 50`, `content: min 1 max 500`, `categoryId: min 1`);
* `onSubmit` — the `onSubmit` handler, modelled as a function from the
  form state, the post id and the (external) network result to the
  resulting state, the ordered list of emitted side effects and the
  outcome (success, or the thrown error);
* `populate` — the body of the `useEffect` that copies the loaded post
  into the form once the query is ready;
* `handleContentChange` — the per-keystroke content handler;
* `characterCountClass` / `counterView` — the character-counter rendering
  expression of the JSX.

Strings are Lean `String`s; `String.length` counts Unicode scalar values
where JavaScript counts UTF-16 units, which is immaterial to the claims.
-/

/-- Editable fields of a post, as held by the form (react-hook-form
`defaultValues` shape): `title`, `content`, `categoryId`, all strings. -/
structure Draft where
  title : String
  content : String
  categoryId : String
deriving DecidableEq, Repr

/-- Modelled from the spec: the `IPost` type imported from `@/types` is not
part of the provided sources.  Per the spec data model and the round-trip
scenario (`categoryId: 7` stringified to `"7"`), a post carries a numeric
id, title, content and a numeric category id. -/
structure Post where
  id : Nat
  title : String
  content : String
  categoryId : Nat
deriving DecidableEq, Repr

/-- `defaultValues` of `useForm`: all three fields empty. -/
def defaultValues : Draft :=
  { title := "", content := "", categoryId := "" }

/-- `z.string().min(1).max(50)` applied to the title. -/
def titleValid (s : String) : Bool :=
  1 ≤ s.length && s.length ≤ 50

/-- `z.string().min(1).max(500)` applied to the content. -/
def contentValid (s : String) : Bool :=
  1 ≤ s.length && s.length ≤ 500

/-- `z.string().min(1)` applied to the category id. -/
def categoryIdValid (s : String) : Bool :=
  1 ≤ s.length

/-- The zod `formSchema`: a draft validates iff every field passes its
constraint.  `form.trigger()` evaluates exactly this. -/
def formSchemaValid (d : Draft) : Bool :=
  titleValid d.title && contentValid d.content && categoryIdValid d.categoryId

/-- Local state of the component relevant to the claims: the draft held
by react-hook-form and the `characterCount` `useState`. -/
structure FormState where
  draft : Draft
  characterCount : Nat
deriving DecidableEq, Repr

/-- Result of the external `ApiService.update` call: resolves, or rejects
with an error (carried as a message). -/
inductive NetResult where
  | ok : NetResult
  | err : String → NetResult
deriving DecidableEq, Repr

/-- Toast variant: the default styling, or `variant: "destructive"`. -/
inductive ToastVariant where
  | std : ToastVariant
  | destructive : ToastVariant
deriving DecidableEq, Repr

/-- Observable side effects of `onSubmit`, in the order the handler
performs them. -/
inductive Effect where
  | validate : Effect
  | netUpdate : String → String → Draft → Effect
  | invalidateQ : List String → Bool → Effect
  | resetDraft : Effect
  | setCharacterCount : Nat → Effect
  | toast : String → String → ToastVariant → Effect
deriving DecidableEq, Repr

/-- Does the effect issue a network update call? -/
def isNetUpdate : Effect → Bool
  | .netUpdate _ _ _ => true
  | _ => false

/-- Does the effect invalidate a cache entry? -/
def isInvalidateQ : Effect → Bool
  | .invalidateQ _ _ => true
  | _ => false

/-- Does the effect reset the draft? -/
def isResetDraft : Effect → Bool
  | .resetDraft => true
  | _ => false

/-- Does the effect write the character count? -/
def isSetCharacterCount : Effect → Bool
  | .setCharacterCount _ => true
  | _ => false

/-- Outcome of `onSubmit`: the promise resolves, or it rejects with the
thrown error. -/
inductive Outcome where
  | success : Outcome
  | thrown : String → Outcome
deriving DecidableEq, Repr

/-- State, emitted effects (in program order) and outcome of one
`onSubmit` call. -/
structure SubmitResult where
  state : FormState
  effects : List Effect
  outcome : Outcome
deriving DecidableEq, Repr

/-- The `onSubmit` handler.  `form.trigger()` re-runs `formSchema` on the
current draft; on failure it toasts destructively and throws
`"Form is not valid"`.  Otherwise it awaits `ApiService.update` on path
`"/posts"` with the post id and the draft as body; on resolution it
invalidates the query key `["posts"]` with `exact: true`, calls
`form.reset()` (back to `defaultValues`), `setCharacterCount(0)` and
toasts success; on rejection it toasts destructively and rethrows. -/
def onSubmit (st : FormState) (postId : String) (net : NetResult) : SubmitResult :=
  if formSchemaValid st.draft then
    match net with
    | .ok =>
        { state := { draft := defaultValues, characterCount := 0 },
          effects := [Effect.validate,
                      Effect.netUpdate "/posts" postId st.draft,
                      Effect.invalidateQ ["posts"] true,
                      Effect.resetDraft,
                      Effect.setCharacterCount 0,
                      Effect.toast "Succès" "Votre post a bien été modifié !" ToastVariant.std],
          outcome := Outcome.success }
    | .err e =>
        { state := st,
          effects := [Effect.validate,
                      Effect.netUpdate "/posts" postId st.draft,
                      Effect.toast "Erreur" "Une erreur est survenue lors de la modification du post." ToastVariant.destructive],
          outcome := Outcome.thrown e }
  else
    { state := st,
      effects := [Effect.validate,
                  Effect.toast "Erreur" "Le formulaire n\x27est pas valide !" ToastVariant.destructive],
      outcome := Outcome.thrown "Form is not valid" }

/-- Body of the `useEffect` once `!isLoading && currentPost`: the draft is
overwritten wholesale with the loaded post (`categoryId` stringified) and
the character count set to the loaded content length.  The previous state
does not enter. -/
def populate (p : Post) : FormState :=
  { draft := { title := p.title, content := p.content, categoryId := toString p.categoryId },
    characterCount := p.content.length }

/-- `handleContentChange`: sets the character count to the new value
length and propagates the value into the content field. -/
def handleContentChange (st : FormState) (value : String) : FormState :=
  { draft := { st.draft with content := value },
    characterCount := value.length }

/-- The class-name expression of the counter `span`:
`characterCount > 400 ? "text-red-500/50" : characterCount > 200 ?
"text-yellow-500/50" : "text-black/50"`. -/
def characterCountClass (n : Nat) : String :=
  if n > 400 then "text-red-500/50"
  else if n > 200 then "text-yellow-500/50"
  else "text-black/50"

/-- The counter rendering: `characterCount > 0` guards the whole block
(`null` otherwise); when shown, the text is `{characterCount}/500` styled
by `characterCountClass`. -/
def counterView (n : Nat) : Option (String × String) :=
  if n > 0 then some (toString n ++ "/500", characterCountClass n) else none

/-- Modelled from the spec: the cache-invalidation collaborator
(react-query `invalidateQueries`) is external to the sources.  Per the
spec, invalidation marks matching entries stale; with `exact` set only
the entry whose key equals the query key matches, otherwise key-prefix
matches.  A cache is a list of (key, stale) entries. -/
def applyInvalidate (queryKey : List String) (exactKey : Bool)
    (cache : List (List String × Bool)) : List (List String × Bool) :=
  cache.map fun entry =>
    if (if exactKey then entry.1 = queryKey else queryKey.isPrefixOf entry.1 = true) then
      (entry.1, true)
    else entry

/-- Draft validity as the spec words it (§4.2): title non-empty and at
most 50 characters, content non-empty and at most 500 characters,
categoryId a non-empty string. -/
def specDraftValid (d : Draft) : Prop :=
  (d.title ≠ "" ∧ d.title.length ≤ 50) ∧
  (d.content ≠ "" ∧ d.content.length ≤ 500) ∧
  d.categoryId ≠ ""


/-- A string is non-empty exactly when its length is at least one; bridges
the zod `min(1)` constraint and the spec wording "non-empty". -/
theorem ne_empty_iff_one_le_length (s : String) : s ≠ "" ↔ 1 ≤ s.length := by
  obtain ⟨data⟩ := s
  cases data with
  | nil => simp [String.length]
  | cons c cs =>
    simp [String.length]
    intro h
    have hd := congrArg String.data h
    simp at hd

/-- An empty title, content or categoryId fails `formSchema`. -/
theorem formSchemaValid_false_of_empty (d : Draft)
    (h : d.title = "" ∨ d.content = "" ∨ d.categoryId = "") :
    formSchemaValid d = false := by
  rcases h with h | h | h <;> rw [formSchemaValid, h] <;>
    simp [titleValid, contentValid, categoryIdValid,
      show ("" : String).length = 0 from rfl]

/-- Claim C1: for every draft with an empty title, empty content or empty
categoryId, `onSubmit` rejects (throws "Form is not valid"), emits the
destructive "form is not valid" toast, and issues no network update. -/
theorem submit_rejects_empty_field (st : FormState) (postId : String) (net : NetResult)
    (h : st.draft.title = "" ∨ st.draft.content = "" ∨ st.draft.categoryId = "") :
    (onSubmit st postId net).outcome = Outcome.thrown "Form is not valid" ∧
    Effect.toast "Erreur" "Le formulaire n\x27est pas valide !" ToastVariant.destructive
      ∈ (onSubmit st postId net).effects ∧
    (onSubmit st postId net).effects.any isNetUpdate = false := by
  have hv := formSchemaValid_false_of_empty st.draft h
  unfold onSubmit
  rw [hv]
  simp [isNetUpdate]

/-- Witness for C1 at the concrete draft ("", "x", "1"). -/
theorem submit_rejects_empty_field_witness :
    (onSubmit ⟨⟨"", "x", "1"⟩, 1⟩ "1" NetResult.ok).outcome = Outcome.thrown "Form is not valid" ∧
    Effect.toast "Erreur" "Le formulaire n\x27est pas valide !" ToastVariant.destructive
      ∈ (onSubmit ⟨⟨"", "x", "1"⟩, 1⟩ "1" NetResult.ok).effects ∧
    (onSubmit ⟨⟨"", "x", "1"⟩, 1⟩ "1" NetResult.ok).effects.any isNetUpdate = false :=
  submit_rejects_empty_field ⟨⟨"", "x", "1"⟩, 1⟩ "1" NetResult.ok (Or.inl rfl)

/-- Claim C2: a draft passes `formSchema` exactly when its title is
non-empty and at most 50 characters, its content non-empty and at most
500 characters, and its categoryId non-empty. -/
theorem formSchema_matches_spec (d : Draft) :
    formSchemaValid d = true ↔ specDraftValid d := by
  unfold formSchemaValid titleValid contentValid categoryIdValid specDraftValid
  simp only [Bool.and_eq_true, decide_eq_true_eq, ne_empty_iff_one_le_length]
  tauto

/-- Claim C3: per `onSubmit` call the effects occur in the strict program
order validation, network update, cache invalidation, draft reset,
character-count reset, notification — pinned by the exact effect list of
each branch — and the resets occur only in the success branch, before the
success toast. -/
theorem submit_effects_ordered (st : FormState) (postId emsg : String) (net : NetResult) :
    (formSchemaValid st.draft = true →
      (onSubmit st postId NetResult.ok).effects =
        [Effect.validate,
         Effect.netUpdate "/posts" postId st.draft,
         Effect.invalidateQ ["posts"] true,
         Effect.resetDraft,
         Effect.setCharacterCount 0,
         Effect.toast "Succès" "Votre post a bien été modifié !" ToastVariant.std]) ∧
    (formSchemaValid st.draft = true →
      (onSubmit st postId (NetResult.err emsg)).effects =
        [Effect.validate,
         Effect.netUpdate "/posts" postId st.draft,
         Effect.toast "Erreur" "Une erreur est survenue lors de la modification du post."
           ToastVariant.destructive]) ∧
    (formSchemaValid st.draft = false →
      (onSubmit st postId net).effects =
        [Effect.validate,
         Effect.toast "Erreur" "Le formulaire n\x27est pas valide !" ToastVariant.destructive]) ∧
    ((onSubmit st postId net).effects.any isResetDraft = true →
      (onSubmit st postId net).outcome = Outcome.success) ∧
    ((onSubmit st postId net).effects.any isSetCharacterCount = true →
      (onSubmit st postId net).outcome = Outcome.success) := by
  unfold onSubmit
  rcases hval : formSchemaValid st.draft <;> rcases net <;>
    simp [isResetDraft, isSetCharacterCount]

/-- Witness for C3 at the valid draft ("T", "Hello", "1") with a
resolving network call: the full ordered success trace. -/
theorem submit_effects_ordered_witness :
    (onSubmit ⟨⟨"T", "Hello", "1"⟩, 5⟩ "1" NetResult.ok).effects =
      [Effect.validate,
       Effect.netUpdate "/posts" "1" ⟨"T", "Hello", "1"⟩,
       Effect.invalidateQ ["posts"] true,
       Effect.resetDraft,
       Effect.setCharacterCount 0,
       Effect.toast "Succès" "Votre post a bien été modifié !" ToastVariant.std] :=
  (submit_effects_ordered ⟨⟨"T", "Hello", "1"⟩, 5⟩ "1" "boom" NetResult.ok).1 rfl

/-- Claim C4: for a valid draft whose update call rejects, `onSubmit`
emits the destructive toast, rethrows the same error, leaves the state
(draft and count) unchanged, and performs no cache invalidation and no
reset of draft or character count. -/
theorem submit_network_failure (st : FormState) (postId emsg : String)
    (h : formSchemaValid st.draft = true) :
    (onSubmit st postId (NetResult.err emsg)).outcome = Outcome.thrown emsg ∧
    Effect.toast "Erreur" "Une erreur est survenue lors de la modification du post."
      ToastVariant.destructive ∈ (onSubmit st postId (NetResult.err emsg)).effects ∧
    (onSubmit st postId (NetResult.err emsg)).state = st ∧
    (onSubmit st postId (NetResult.err emsg)).effects.any isInvalidateQ = false ∧
    (onSubmit st postId (NetResult.err emsg)).effects.any isResetDraft = false ∧
    (onSubmit st postId (NetResult.err emsg)).effects.any isSetCharacterCount = false := by
  unfold onSubmit
  rw [h]
  simp [isInvalidateQ, isResetDraft, isSetCharacterCount]

/-- Witness for C4 at the valid draft ("T", "Hello", "1") and the error
"boom". -/
theorem submit_network_failure_witness :
    (onSubmit ⟨⟨"T", "Hello", "1"⟩, 5⟩ "1" (NetResult.err "boom")).outcome =
      Outcome.thrown "boom" ∧
    Effect.toast "Erreur" "Une erreur est survenue lors de la modification du post."
      ToastVariant.destructive ∈ (onSubmit ⟨⟨"T", "Hello", "1"⟩, 5⟩ "1" (NetResult.err "boom")).effects ∧
    (onSubmit ⟨⟨"T", "Hello", "1"⟩, 5⟩ "1" (NetResult.err "boom")).state = ⟨⟨"T", "Hello", "1"⟩, 5⟩ ∧
    (onSubmit ⟨⟨"T", "Hello", "1"⟩, 5⟩ "1" (NetResult.err "boom")).effects.any isInvalidateQ = false ∧
    (onSubmit ⟨⟨"T", "Hello", "1"⟩, 5⟩ "1" (NetResult.err "boom")).effects.any isResetDraft = false ∧
    (onSubmit ⟨⟨"T", "Hello", "1"⟩, 5⟩ "1" (NetResult.err "boom")).effects.any isSetCharacterCount = false :=
  submit_network_failure ⟨⟨"T", "Hello", "1"⟩, 5⟩ "1" "boom" rfl

/-- Claim C5: the counter is a pure function of the count — hidden exactly
when the count is 0, otherwise the text `count/500` with the red class
exactly when count > 400, the yellow class exactly when 200 < count ≤ 400,
and the neutral black class exactly otherwise (count ≤ 200). -/
theorem counter_presentation (n : Nat) :
    (counterView n = none ↔ n = 0) ∧
    (1 ≤ n → counterView n = some (toString n ++ "/500", characterCountClass n)) ∧
    (characterCountClass n = "text-red-500/50" ↔ 400 < n) ∧
    (characterCountClass n = "text-yellow-500/50" ↔ 200 < n ∧ n ≤ 400) ∧
    (characterCountClass n = "text-black/50" ↔ n ≤ 200) := by
  unfold counterView characterCountClass
  refine ⟨?_, ?_, ?_, ?_, ?_⟩ <;> split_ifs <;> simp_all <;> omega

/-- Witness for C5 at count 250: shown, warning-tier styling. -/
theorem counter_presentation_witness :
    counterView 250 = some (toString 250 ++ "/500", characterCountClass 250) :=
  (counter_presentation 250).2.1 (by decide)

/-- Claim C6: after each content-changing operation — a keystroke through
`handleContentChange`, population from the loaded post, and the reset of a
successful submission — the character count equals the length of the
current content. -/
theorem characterCount_tracks_content (st : FormState) (value : String) (p : Post)
    (postId : String) :
    (handleContentChange st value).characterCount =
      (handleContentChange st value).draft.content.length ∧
    (populate p).characterCount = (populate p).draft.content.length ∧
    (formSchemaValid st.draft = true →
      (onSubmit st postId NetResult.ok).state.characterCount =
        (onSubmit st postId NetResult.ok).state.draft.content.length) := by
  refine ⟨rfl, rfl, fun h => ?_⟩
  unfold onSubmit
  rw [h]
  simp [defaultValues]

/-- Witness for C6: the keystroke conjunct at the invalid draft
("", "Hello", "1") typing "Hi", the population conjunct at the loaded
post (1, "Hello", "World", 7), and the successful-submission conjunct at
the valid draft ("T", "Hello", "1"). -/
theorem characterCount_tracks_content_witness :
    (handleContentChange ⟨⟨"", "Hello", "1"⟩, 5⟩ "Hi").characterCount =
      (handleContentChange ⟨⟨"", "Hello", "1"⟩, 5⟩ "Hi").draft.content.length ∧
    (populate ⟨1, "Hello", "World", 7⟩).characterCount =
      (populate ⟨1, "Hello", "World", 7⟩).draft.content.length ∧
    (onSubmit ⟨⟨"T", "Hello", "1"⟩, 5⟩ "1" NetResult.ok).state.characterCount =
      (onSubmit ⟨⟨"T", "Hello", "1"⟩, 5⟩ "1" NetResult.ok).state.draft.content.length :=
  ⟨(characterCount_tracks_content ⟨⟨"", "Hello", "1"⟩, 5⟩ "Hi" ⟨1, "Hello", "World", 7⟩ "1").1,
   (characterCount_tracks_content ⟨⟨"", "Hello", "1"⟩, 5⟩ "Hi" ⟨1, "Hello", "World", 7⟩ "1").2.1,
   (characterCount_tracks_content ⟨⟨"T", "Hello", "1"⟩, 5⟩ "Hi" ⟨1, "Hello", "World", 7⟩ "1").2.2 rfl⟩

/-- Claim C7: immediately after population, the draft holds the loaded
title and content and the stringified loaded categoryId, and the
character count equals the loaded content length. -/
theorem populate_round_trip (p : Post) :
    (populate p).draft.title = p.title ∧
    (populate p).draft.content = p.content ∧
    (populate p).draft.categoryId = toString p.categoryId ∧
    (populate p).characterCount = p.content.length :=
  ⟨rfl, rfl, rfl, rfl⟩

/-- Claim C8: a successful submission emits exactly one cache
invalidation, keyed by the literal key "posts" with exact matching; under
exact matching every cache entry keyed other than ["posts"] keeps its
staleness, while the ["posts"] entry is marked stale. -/
theorem invalidate_exact_posts_only (st : FormState) (postId : String)
    (cache : List (List String × Bool)) (key : List String) (stale : Bool)
    (h : formSchemaValid st.draft = true) :
    Effect.invalidateQ ["posts"] true ∈ (onSubmit st postId NetResult.ok).effects ∧
    (onSubmit st postId NetResult.ok).effects.filter isInvalidateQ =
      [Effect.invalidateQ ["posts"] true] ∧
    ((key, stale) ∈ cache → key ≠ ["posts"] →
      (key, stale) ∈ applyInvalidate ["posts"] true cache) ∧
    ((key, stale) ∈ cache → key = ["posts"] →
      (key, true) ∈ applyInvalidate ["posts"] true cache) := by
  refine ⟨?_, ?_, ?_, ?_⟩
  · unfold onSubmit
    rw [h]
    simp
  · unfold onSubmit
    rw [h]
    simp [isInvalidateQ]
  · intro hm hne
    unfold applyInvalidate
    exact List.mem_map.mpr ⟨(key, stale), hm, by simp [hne]⟩
  · intro hm heq
    unfold applyInvalidate
    exact List.mem_map.mpr ⟨(key, stale), hm, by simp [heq]⟩

/-- Witness for C8 at the valid draft ("T", "Hello", "1") and a cache
holding the exact key ["posts"] and the variant key ["posts", "p2"]. -/
theorem invalidate_exact_posts_only_witness :
    Effect.invalidateQ ["posts"] true ∈ (onSubmit ⟨⟨"T", "Hello", "1"⟩, 5⟩ "1" NetResult.ok).effects ∧
    (onSubmit ⟨⟨"T", "Hello", "1"⟩, 5⟩ "1" NetResult.ok).effects.filter isInvalidateQ =
      [Effect.invalidateQ ["posts"] true] ∧
    (["posts", "p2"], false) ∈ applyInvalidate ["posts"] true
      [(["posts"], false), (["posts", "p2"], false)] :=
  let t := invalidate_exact_posts_only ⟨⟨"T", "Hello", "1"⟩, 5⟩ "1"
    [(["posts"], false), (["posts", "p2"], false)] ["posts", "p2"] false rfl
  ⟨t.1, t.2.1, t.2.2.1 (by decide) (by decide)⟩

/-- Claim C9: submitting an already-invalid draft leaves the state
unchanged, so a second identical submit call returns the very same
rejection result; neither call issues a network update. -/
theorem invalid_submit_idempotent (st : FormState) (postId : String) (net : NetResult)
    (h : formSchemaValid st.draft = false) :
    (onSubmit st postId net).state = st ∧
    onSubmit (onSubmit st postId net).state postId net = onSubmit st postId net ∧
    (onSubmit st postId net).effects.any isNetUpdate = false ∧
    (onSubmit st postId net).outcome = Outcome.thrown "Form is not valid" := by
  have h1 : (onSubmit st postId net).state = st := by
    unfold onSubmit
    rw [h]
    simp
  refine ⟨h1, by rw [h1], ?_, ?_⟩ <;>
    (unfold onSubmit; rw [h]; simp [isNetUpdate])

/-- Witness for C9 at the concrete invalid draft ("", "x", "1"). -/
theorem invalid_submit_idempotent_witness :
    (onSubmit ⟨⟨"", "x", "1"⟩, 1⟩ "1" NetResult.ok).state = ⟨⟨"", "x", "1"⟩, 1⟩ ∧
    onSubmit (onSubmit ⟨⟨"", "x", "1"⟩, 1⟩ "1" NetResult.ok).state "1" NetResult.ok =
      onSubmit ⟨⟨"", "x", "1"⟩, 1⟩ "1" NetResult.ok ∧
    (onSubmit ⟨⟨"", "x", "1"⟩, 1⟩ "1" NetResult.ok).effects.any isNetUpdate = false ∧
    (onSubmit ⟨⟨"", "x", "1"⟩, 1⟩ "1" NetResult.ok).outcome = Outcome.thrown "Form is not valid" :=
  invalid_submit_idempotent ⟨⟨"", "x", "1"⟩, 1⟩ "1" NetResult.ok rfl

/-- Claim C10: whenever `onSubmit` does not succeed — validation rejection
or network failure — the character count after the call equals the
character count before it. -/
theorem failed_submit_preserves_count (st : FormState) (postId : String) (net : NetResult)
    (h : (onSubmit st postId net).outcome ≠ Outcome.success) :
    (onSubmit st postId net).state.characterCount = st.characterCount := by
  unfold onSubmit at *
  rcases hv : formSchemaValid st.draft <;> rcases net <;> simp_all

/-- Witness for C10 at the invalid draft ("", "x", "1") with prior count 7. -/
theorem failed_submit_preserves_count_witness :
    (onSubmit ⟨⟨"", "x", "1"⟩, 7⟩ "1" NetResult.ok).state.characterCount =
      FormState.characterCount ⟨⟨"", "x", "1"⟩, 7⟩ :=
  failed_submit_preserves_count ⟨⟨"", "x", "1"⟩, 7⟩ "1" NetResult.ok (by decide)
